import Mathlib

/-!
Verification of the MLIR `Properties.td` schema-combinator file.

The TableGen source defines a `Property` class (storage/interface types,
documentation, a validity predicate, a default value, and code fragments for
conversion, parsing, printing, hashing and bytecode I/O), primitive property
kinds (`IntProp`, `StringProp`, `BoolProp`, `UnitProp`), modifier combinators
(`DefaultValuedProp`, `ConfinedProp`) and container combinators (`ArrayProp`,
`OptionalProp`).

We embed the file at two levels:

1. A syntactic level: `Property` is a record of fragment strings and a
   predicate tree, and each TableGen class becomes a Lean function producing
   such a record, computing every field exactly as the TableGen does
   (string concatenation for `#`, `String.replace` for `!subst`,
   pattern matching for `!if`/`!cond` on record comparisons).
   Brace characters inside the transcribed C++ templates are written with
   `\x7b` and `\x7d` escapes; TableGen code-block indentation is normalized.

2. A semantic level: the behavior of the C++ code the fragments expand to,
   with `LogicalResult`-returning code modelled with `Option`/`Bool` results
   and reference-parameter mutation modelled by explicit state passing.
   The bytecode reader/writer primitives (`writeVarInt`/`readVarInt`,
   `writeOwnedBool`/`readBool`, `writeOwnedString`/`readString`) are external
   collaborators assumed correct, modelled as lossless channels; the integer
   kind's fragments additionally perform C++ integer conversions
   (intN -> uint64 on write, uint64 -> intN on read), modelled with
   modular arithmetic on `Int`.
-/

namespace MlirTd

/-- The TableGen `Pred` hierarchy from `Constraints.td`, as used by this file:
`TruePred`, `CPred`, `And`, `Or`, `Concat` and `SubstLeaves`. Distinct
TableGen records are distinct constructors/applications, matching `!eq`/`!ne`
record comparison on predicates. -/
inductive Pred where
  | truePred : Pred
  | cpred : String → Pred
  | and : List Pred → Pred
  | or : List Pred → Pred
  | concat : String → Pred → String → Pred
  | substLeaves : String → String → Pred → Pred

/-- Default `parser` fragment of the `Property` class; it mentions the
record's own `storageType`. -/
def defaultParserText (storageType : String) : String :=
  "auto value = ::mlir::FieldParser<" ++ storageType ++ ">::parse($_parser);\n" ++
  "if (::mlir::failed(value))\n" ++
  "  return ::mlir::failure();\n" ++
  "$_storage = std::move(*value);"

/-- The `Property` TableGen class: storage/interface types, documentation,
predicate, the seven behavior fragments, default value and storage-default
override. Field defaults are those of the `Property` class body.
(The `baseProperty` introspection back-reference is not modelled: it is
documented as never being used for dispatch, and no fragment reads it.) -/
structure Property where
  summary : String
  description : String := ""
  storageType : String
  interfaceType : String
  predicate : Pred := Pred.truePred
  convertFromStorage : String := "$_storage"
  assignToStorage : String := "$_storage = $_value"
  convertToAttribute : String := "return convertToAttribute($_ctxt, $_storage);"
  convertFromAttribute : String := "return convertFromAttribute($_storage, $_attr, $_diag);"
  hashProperty : String := ""
  parser : String := defaultParserText storageType
  optionalParser : String := ""
  printer : String := "$_printer << $_storage"
  writeToMlirBytecode : String := "writeToMlirBytecode($_writer, $_storage);"
  readFromMlirBytecode : String :=
    "if (::mlir::failed(readFromMlirBytecode($_reader, $_storage)))\n  return ::mlir::failure();"
  defaultValue : String := ""
  storageTypeValueOverride : String := ""

/-- Instantiation `Property<storageTypeParam, desc, interfaceTypeParam>`:
the summary comes from the `desc` parameter (via `PropConstraint`), the
interface type defaults to the storage type at the use sites that omit it. -/
def Property.ofParams (storageTypeParam : String) (desc : String)
    (interfaceTypeParam : String) : Property :=
  { summary := desc, storageType := storageTypeParam,
    interfaceType := interfaceTypeParam }

/-- The `IntProp` class: any kind of integer stored as a property. -/
def IntProp (storageTypeParam : String) (desc : String := "") : Property :=
  { Property.ofParams storageTypeParam desc storageTypeParam with
    summary := if desc == "" then storageTypeParam else desc
    optionalParser := "return $_parser.parseOptionalInteger($_storage);"
    printer := "$_printer.printInteger($_storage)"
    writeToMlirBytecode := "$_writer.writeVarInt($_storage);"
    readFromMlirBytecode :=
      "uint64_t val;\nif (failed($_reader.readVarInt(val)))\n" ++
      "  return ::mlir::failure();\n$_storage = val;" }

/-- `def I32Prop : IntProp<"int32_t">`. -/
def I32Prop : Property := IntProp "int32_t"

/-- `def I64Prop : IntProp<"int64_t">`. -/
def I64Prop : Property := IntProp "int64_t"

/-- The `_cls_StringProp` class (`StringProp`): `std::string` storage,
`::llvm::StringRef` interface. -/
def StringProp : Property :=
  { Property.ofParams "std::string" "string" "::llvm::StringRef" with
    convertFromStorage := "::llvm::StringRef\x7b$_storage\x7d"
    assignToStorage := "$_storage = $_value.str()"
    optionalParser :=
      "if (::mlir::failed($_parser.parseOptionalString(&$_storage)))\n  return std::nullopt;"
    printer := "$_printer.printString($_storage)"
    readFromMlirBytecode :=
      "StringRef val;\nif (::mlir::failed($_reader.readString(val)))\n" ++
      "  return ::mlir::failure();\n$_storage = val.str();"
    writeToMlirBytecode := "$_writer.writeOwnedString($_storage);" }

/-- The `_cls_BoolProp` class (`BoolProp`): `IntProp<"bool", "boolean">` with
boolean-specific printing and bytecode fragments. -/
def BoolProp : Property :=
  { IntProp "bool" "boolean" with
    printer := "$_printer << ($_storage ? \"true\" : \"false\")"
    readFromMlirBytecode := "return $_reader.readBool($_storage);"
    writeToMlirBytecode := "$_writer.writeOwnedBool($_storage);" }

/-- The `_cls_UnitProp` class (`UnitProp`): a presence flag stored as a
boolean defaulting to `false`, with explicit `unit` / `unit_absent` surface
syntax and marker-attribute conversion. -/
def UnitProp : Property :=
  { Property.ofParams "bool" "unit property" "bool" with
    summary := "unit property"
    description :=
      "A property whose presence or abscence is used as a flag.\n\n" ++
      "This is stored as a boolean that defaults to false, and is named UnitProperty\n" ++
      "by analogy with UnitAttr, which has the more comprehensive rationale and\n" ++
      "explains the less typical syntax.\n\n" ++
      "Note that this attribute does have a syntax for the false case to allow for its\n" ++
      "use in contexts where default values shouldn\x27t be elided."
    defaultValue := "false"
    convertToAttribute :=
      "if ($_storage)\n  return ::mlir::UnitAttr::get($_ctxt);\n" ++
      "else\n  return ::mlir::BoolAttr::get($_ctxt, false);"
    convertFromAttribute :=
      "if (::llvm::isa<::mlir::UnitAttr>($_attr)) \x7b\n" ++
      "  $_storage = true;\n  return ::mlir::success();\n\x7d\n" ++
      "if (auto boolAttr = ::llvm::dyn_cast<::mlir::BoolAttr>($_attr)) \x7b\n" ++
      "  $_storage = boolAttr.getValue();\n  return ::mlir::success();\n\x7d\n" ++
      "return ::mlir::failure();"
    parser :=
      "::llvm::StringRef keyword;\n" ++
      "if (::mlir::failed($_parser.parseOptionalKeyword(&keyword,\n" ++
      "    \x7b\"unit\", \"unit_absent\"\x7d)))\n" ++
      "  return $_parser.emitError($_parser.getCurrentLocation(),\n" ++
      "    \"expected \x27unit\x27 or \x27unit_absent\x27\");\n" ++
      "$_storage = (keyword == \"unit\");"
    optionalParser :=
      "::llvm::StringRef keyword;\n" ++
      "if (::mlir::failed($_parser.parseOptionalKeyword(&keyword,\n" ++
      "    \x7b\"unit\", \"unit_absent\"\x7d)))\n" ++
      "  return std::nullopt;\n" ++
      "$_storage = (keyword == \"unit\");"
    printer := "$_printer << ($_storage ? \"unit\" : \"unit_absent\")"
    writeToMlirBytecode := "$_writer.writeOwnedBool($_storage);"
    readFromMlirBytecode :=
      "if (::mlir::failed($_reader.readBool($_storage)))\n  return ::mlir::failure();" }

/-- The `DefaultValuedProp` class: gives `p` a default value (and optionally
a distinct storage initializer) and forwards every other field from `p`. -/
def DefaultValuedProp (p : Property) (default : String := "")
    (storageDefault : String := "") : Property :=
  { Property.ofParams p.storageType p.summary p.interfaceType with
    defaultValue := default
    storageTypeValueOverride := storageDefault
    summary := p.summary
    description := p.description
    storageType := p.storageType
    interfaceType := p.interfaceType
    convertFromStorage := p.convertFromStorage
    assignToStorage := p.assignToStorage
    convertToAttribute := p.convertToAttribute
    convertFromAttribute := p.convertFromAttribute
    predicate := p.predicate
    hashProperty := p.hashProperty
    parser := p.parser
    optionalParser := p.optionalParser
    printer := p.printer
    readFromMlirBytecode := p.readFromMlirBytecode
    writeToMlirBytecode := p.writeToMlirBytecode }

/-- The `ConfinedProp` class: ANDs an extra predicate onto `p`'s predicate
(or replaces a trivially-true predicate), optionally replaces the summary,
and forwards every other field from `p`. -/
def ConfinedProp (p : Property) (pred : Pred) (newSummary : String := "") :
    Property :=
  { Property.ofParams p.storageType
      (if newSummary == "" then p.summary else newSummary) p.interfaceType with
    predicate :=
      match p.predicate with
      | Pred.truePred => pred
      | q => Pred.and [q, pred]
    description := p.description
    storageType := p.storageType
    interfaceType := p.interfaceType
    convertFromStorage := p.convertFromStorage
    assignToStorage := p.assignToStorage
    convertToAttribute := p.convertToAttribute
    convertFromAttribute := p.convertFromAttribute
    hashProperty := p.hashProperty
    parser := p.parser
    optionalParser := p.optionalParser
    printer := p.printer
    readFromMlirBytecode := p.readFromMlirBytecode
    writeToMlirBytecode := p.writeToMlirBytecode
    defaultValue := p.defaultValue
    storageTypeValueOverride := p.storageTypeValueOverride }

/-- The `_makePropStorage` helper class: declare a variable `name` of `prop`'s
storage type, initialized with the storage-type override if set, else the
default value if set, else default-constructed (the `!cond` chain). -/
def makePropStorage (prop : Property) (name : String) : String :=
  prop.storageType ++ " " ++ name ++
    (if !(prop.storageTypeValueOverride == "") then " = " ++ prop.storageTypeValueOverride
     else if !(prop.defaultValue == "") then " = " ++ prop.defaultValue
     else "") ++ ";"

/-- The `_makeStorageWrapperPred` helper class: wrap `wrappedProp`'s predicate
in a storage-taking boolean lambda that first converts storage to interface
form. -/
def makeStorageWrapperPred (wrappedProp : Property) : Pred :=
  Pred.concat
    ("[](" ++ "const " ++ wrappedProp.storageType
      ++ "& baseStore) -> bool \x7b return [](" ++ wrappedProp.interfaceType
      ++ " baseIface) -> bool \x7b return (")
    (Pred.substLeaves "$_self" "baseIface" wrappedProp.predicate)
    ("); \x7d(" ++ (wrappedProp.convertFromStorage.replace "$_storage" "baseStore")
      ++ "); \x7d")

/-- Text of `ArrayProp.convertFromAttribute` before its
`_makePropStorage<elem, "elemVal">.ret` splice. -/
def arrayConvertFromAttributePre : String :=
  "auto arrayAttr = ::llvm::dyn_cast_if_present<::mlir::ArrayAttr>($_attr);\n" ++
  "if (!arrayAttr)\n  return $_diag() << \"expected array attribute\";\n" ++
  "for (::mlir::Attribute elemAttr : arrayAttr) \x7b\n  "

/-- Text of `ArrayProp.convertFromAttribute` after its `_makePropStorage`
splice. -/
def arrayConvertFromAttributePost (elem : Property) : String :=
  "\n  auto elemRes = [&](Attribute propAttr, " ++ elem.storageType ++
  "& propStorage) -> ::mlir::LogicalResult \x7b\n    " ++
  ((elem.convertFromAttribute.replace "$_storage" "propStorage").replace
    "$_attr" "propAttr") ++
  "\n  \x7d(elemAttr, elemVal);\n" ++
  "  if (::mlir::failed(elemRes))\n    return ::mlir::failure();\n" ++
  "  $_storage.push_back(std::move(elemVal));\n\x7d\n" ++
  "return ::mlir::success();"

/-- Text of `ArrayProp.readFromMlirBytecode` before its `_makePropStorage`
splice. -/
def arrayReadFromMlirBytecodePre : String :=
  "uint64_t length;\n" ++
  "if (::mlir::failed($_reader.readVarInt(length)))\n  return ::mlir::failure();\n" ++
  "$_storage.reserve(length);\n" ++
  "for (uint64_t i = 0; i < length; ++i) \x7b\n  "

/-- Text of `ArrayProp.readFromMlirBytecode` after its `_makePropStorage`
splice. -/
def arrayReadFromMlirBytecodePost (elem : Property) : String :=
  "\n  auto elemRead = [&](" ++ elem.storageType ++
  "& propStorage) -> ::mlir::LogicalResult \x7b\n    " ++
  (elem.readFromMlirBytecode.replace "$_storage" "propStorage") ++
  ";\n    return ::mlir::success();\n  \x7d(elemVal);\n" ++
  "  if (::mlir::failed(elemRead))\n    return ::mlir::failure();\n" ++
  "  $_storage.push_back(std::move(elemVal));\n\x7d"

/-- Text of the `theParserBegin` defvar before its `_makePropStorage`
splice. -/
def theParserBeginPre : String :=
  "auto& storage = $_storage;\n" ++
  "auto parseElemFn = [&]() -> ::mlir::ParseResult \x7b\n  "

/-- Text of the `theParserBegin` defvar after its `_makePropStorage`
splice. -/
def theParserBeginPost (elem : Property) : String :=
  "\n  auto elemParse = [&](" ++ elem.storageType ++
  "& propStorage) -> ::mlir::ParseResult \x7b\n    " ++
  (elem.parser.replace "$_storage" "propStorage") ++
  "\n    return ::mlir::success();\n   \x7d(elemVal);\n" ++
  "  if (::mlir::failed(elemParse))\n    return ::mlir::failure();\n" ++
  "  storage.push_back(std::move(elemVal));\n  return ::mlir::success();\n\x7d;"

/-- The `theParserBegin` defvar of `ArrayProp`: the shared element-parsing
lambda preamble of its `parser` and `optionalParser`. -/
def theParserBegin (elem : Property) : String :=
  theParserBeginPre ++ makePropStorage elem "elemVal" ++ theParserBeginPost elem

/-- Text of `ArrayProp.parser` after the `theParserBegin` splice. -/
def arrayParserTail : String :=
  "\nreturn $_parser.parseCommaSeparatedList(\n" ++
  "  ::mlir::OpAsmParser::Delimiter::Square, parseElemFn);"

/-- Text of `ArrayProp.optionalParser` after the `theParserBegin` splice
(the position-comparison peek around the optional-bracket list parse). -/
def arrayOptionalParserTail : String :=
  "\nauto oldLoc = $_parser.getCurrentLocation();\n" ++
  "auto parseResult = $_parser.parseCommaSeparatedList(\n" ++
  "  ::mlir::OpAsmParser::Delimiter::OptionalSquare, parseElemFn);\n" ++
  "if (::mlir::failed(parseResult))\n  return ::mlir::failure();\n" ++
  "auto newLoc = $_parser.getCurrentLocation();\n" ++
  "if (oldLoc == newLoc)\n  return std::nullopt;\n" ++
  "return ::mlir::success();"

/-- The `ArrayProp` class: an ordered sequence of `elem`, stored as a
`SmallVector` of `elem`'s storage type, with every fragment synthesized by
iterating `elem`'s fragments. -/
def ArrayProp (elem : Property) (newSummary : String := "") : Property :=
  { Property.ofParams ("::llvm::SmallVector<" ++ elem.storageType ++ ">")
      (if newSummary == "" then "array of " ++ elem.summary else newSummary)
      ("::llvm::ArrayRef<" ++ elem.storageType ++ ">") with
    convertFromStorage :=
      "::llvm::ArrayRef<" ++ elem.storageType ++ ">\x7b$_storage\x7d"
    assignToStorage := "$_storage.assign($_value.begin(), $_value.end())"
    convertFromAttribute :=
      arrayConvertFromAttributePre ++ makePropStorage elem "elemVal" ++
      arrayConvertFromAttributePost elem
    convertToAttribute :=
      "SmallVector<Attribute> elems;\n" ++
      "for (const auto& elemVal : $_storage) \x7b\n" ++
      "  auto elemAttr = [&](const " ++ elem.storageType ++
      "& propStorage) -> ::mlir::Attribute \x7b\n    " ++
      (elem.convertToAttribute.replace "$_storage" "propStorage") ++
      "\n  \x7d(elemVal);\n" ++
      "  elems.push_back(elemAttr);\n\x7d\n" ++
      "return ::mlir::ArrayAttr::get($_ctxt, elems);"
    predicate :=
      match elem.predicate with
      | Pred.truePred => Pred.truePred
      | _ => Pred.concat "::llvm::all_of($_self, " (makeStorageWrapperPred elem) ")"
    parser := theParserBegin elem ++ arrayParserTail
    optionalParser := theParserBegin elem ++ arrayOptionalParserTail
    printer :=
      "[&]()\x7b\n  $_printer << \"[\";\n" ++
      "  auto elemPrinter = [&](const " ++ elem.storageType ++
      "& elemVal) \x7b\n    " ++
      (elem.printer.replace "$_storage" "elemVal") ++ ";\n  \x7d;\n" ++
      "  ::llvm::interleaveComma($_storage, $_printer, elemPrinter);\n" ++
      "  $_printer << \"]\";\n\x7d()"
    readFromMlirBytecode :=
      arrayReadFromMlirBytecodePre ++ makePropStorage elem "elemVal" ++
      arrayReadFromMlirBytecodePost elem
    writeToMlirBytecode :=
      "$_writer.writeVarInt($_storage.size());\n" ++
      "for (const auto& elemVal : $_storage) \x7b\n" ++
      "  [&]() \x7b\n    " ++
      (elem.writeToMlirBytecode.replace "$_storage" "elemVal") ++
      ";\n  \x7d();\n\x7d"
    hashProperty :=
      if elem.hashProperty == "" then
        "hash_value(::llvm::ArrayRef<" ++ elem.storageType ++ ">\x7b$_storage\x7d)"
      else
        "[&]() -> ::llvm::hash_code \x7b\n" ++
        "  auto getElemHash = [](const auto& propStorage) -> ::llvm::hash_code \x7b\n" ++
        "    return " ++ (elem.hashProperty.replace "$_storage" "propStorage") ++
        ";\n  \x7d;\n" ++
        "  auto mapped = ::llvm::map_range($_storage, getElemHash);\n" ++
        "  return ::llvm::hash_combine_range(mapped);\n\x7d()" }

/-- The `hasTrivialStorage` defvar of `OptionalProp`: the wrapped property is
plain old data whose conversions are the identity defaults. -/
def hasTrivialStorage (p : Property) : Bool :=
  (p.convertFromStorage == "$_storage") &&
  (p.assignToStorage == "$_storage = $_value") &&
  (p.storageType == p.interfaceType)

/-- The `delegatesParsing` defvar of `OptionalProp`: the wrapped property has
no default value, has a non-empty optional parser, and delegation was not
disabled. -/
def delegatesParsing (p : Property) (canDelegateParsing : Bool) : Bool :=
  (p.defaultValue == "") && (!(p.optionalParser == "")) && canDelegateParsing

/-- Text of the `delegatedParserBegin` defvar before its
`_makePropStorage<p, "presentVal">.ret` splice. -/
def delegatedParserBeginPre : String :=
  "if (::mlir::succeeded($_parser.parseOptionalKeyword(\"none\"))) \x7b\n" ++
  "  $_storage = std::nullopt;\n  return ::mlir::success();\n\x7d\n"

/-- Text of the `delegatedParserBegin` defvar after its `_makePropStorage`
splice. -/
def delegatedParserBeginPost (p : Property) : String :=
  "\nauto delegParseResult = [&](" ++ p.storageType ++
  "& propStorage) -> ::mlir::OptionalParseResult \x7b\n" ++
  (p.optionalParser.replace "$_storage" "propStorage") ++
  "\n    return ::mlir::success();\n\x7d(presentVal);\n" ++
  "if (!delegParseResult.has_value()) \x7b\n  "

/-- The `delegatedParserBegin` defvar of `OptionalProp`. -/
def delegatedParserBegin (p : Property) : String :=
  delegatedParserBeginPre ++ makePropStorage p "presentVal" ++
  delegatedParserBeginPost p

/-- The `delegatedParserEnd` defvar of `OptionalProp`. -/
def delegatedParserEnd : String :=
  "\n\x7d\n" ++
  "if (delegParseResult.has_value() && ::mlir::failed(*delegParseResult))\n" ++
  "  return ::mlir::failure();\n" ++
  "$_storage = std::move(presentVal);\nreturn ::mlir::success();"

/-- The `delegatedParser` defvar of `OptionalProp`: in a non-eliding context,
a not-present answer from the underlying optional parser is a failure. -/
def delegatedParserText (p : Property) : String :=
  delegatedParserBegin p ++ "return ::mlir::failure();" ++ delegatedParserEnd

/-- The `delegatedOptionalParser` defvar of `OptionalProp`. -/
def delegatedOptionalParserText (p : Property) : String :=
  delegatedParserBegin p ++ "return std::nullopt;" ++ delegatedParserEnd

/-- The `generalParserBegin` defvar of `OptionalProp`. -/
def generalParserBegin : String :=
  "::llvm::StringRef keyword;\n" ++
  "if (::mlir::failed($_parser.parseOptionalKeyword(&keyword, \x7b\"none\", \"some\"\x7d))) \x7b\n  "

/-- Text of the `generalParserEnd` defvar before its
`_makePropStorage<p, "presentVal">.ret` splice. -/
def generalParserEndPre : String :=
  "\n\x7d\n" ++
  "if (keyword == \"none\") \x7b\n  $_storage = std::nullopt;\n  return ::mlir::success();\n\x7d\n" ++
  "if (::mlir::failed($_parser.parseLess()))\n  return ::mlir::failure();\n"

/-- Text of the `generalParserEnd` defvar after its `_makePropStorage`
splice. -/
def generalParserEndPost (p : Property) : String :=
  "\nauto presentParse = [&](" ++ p.storageType ++
  "& propStorage) -> ::mlir::ParseResult \x7b\n  " ++
  (p.parser.replace "$_storage" "propStorage") ++
  "\n  return ::mlir::success();\n\x7d(presentVal);\n" ++
  "if (presentParse || $_parser.parseGreater())\n  return ::mlir::failure();\n" ++
  "$_storage = std::move(presentVal);"

/-- The `generalParserEnd` defvar of `OptionalProp`. -/
def generalParserEnd (p : Property) : String :=
  generalParserEndPre ++ makePropStorage p "presentVal" ++ generalParserEndPost p

/-- The `generalParser` defvar of `OptionalProp`. -/
def generalParserText (p : Property) : String :=
  generalParserBegin ++
  "return $_parser.emitError($_parser.getCurrentLocation(), \"expected \x27none\x27 or \x27some<prop>\x27\");" ++
  generalParserEnd p

/-- The `generalOptionalParser` defvar of `OptionalProp`. -/
def generalOptionalParserText (p : Property) : String :=
  generalParserBegin ++ "return std::nullopt;" ++ generalParserEnd p

/-- The `delegatedPrinter` defvar of `OptionalProp`: `none` for absent,
otherwise the wrapped printer with no wrapping markers. -/
def delegatedPrinterText (p : Property) : String :=
  "[&]() \x7b\n  if (!$_storage.has_value()) \x7b\n    $_printer << \"none\";\n    return;\n  \x7d\n  " ++
  (p.printer.replace "$_storage" "(*($_storage))") ++ ";\n\x7d()"

/-- The `generalPrinter` defvar of `OptionalProp`: `none` for absent,
`some<...>` around the wrapped printer for present. -/
def generalPrinterText (p : Property) : String :=
  "[&]() \x7b\n  if (!$_storage.has_value()) \x7b\n    $_printer << \"none\";\n    return;\n  \x7d\n" ++
  "  $_printer << \"some<\";\n  " ++
  (p.printer.replace "$_storage" "(*($_storage))") ++ ";\n  $_printer << \">\";\n\x7d()"

/-- Text of `OptionalProp.assignToStorage` (non-trivial-storage branch)
before its `_makePropStorage<p, "presentVal">.ret` splice. -/
def optionalAssignToStoragePre : String :=
  "[&]() \x7b\n  if (!$_value.has_value()) \x7b\n    $_storage = std::nullopt;\n    return;\n  \x7d\n  "

/-- Text of `OptionalProp.assignToStorage` (non-trivial-storage branch)
after its `_makePropStorage` splice. -/
def optionalAssignToStoragePost (p : Property) : String :=
  "\n  [&](" ++ p.storageType ++ "& propStorage) \x7b\n    " ++
  ((p.assignToStorage.replace "$_value" "(*($_value))").replace
    "$_storage" "propStorage") ++
  ";\n  \x7d(presentVal);\n  $_storage = std::move(presentVal);\n\x7d()"

/-- Text of `OptionalProp.convertFromAttribute` before its
`_makePropStorage<p, "presentVal">.ret` splice. -/
def optionalConvertFromAttributePre : String :=
  "auto arrayAttr = ::llvm::dyn_cast<::mlir::ArrayAttr>($_attr);\n" ++
  "if (!arrayAttr)\n" ++
  "  return $_diag() << \"expected optional properties to materialize as arrays\";\n" ++
  "if (arrayAttr.size() > 1)\n" ++
  "  return $_diag() << \"expected optional properties to become 0- or 1-element arrays\";\n" ++
  "if (arrayAttr.empty()) \x7b\n  $_storage = std::nullopt;\n  return ::mlir::success();\n\x7d\n" ++
  "::mlir::Attribute presentAttr = arrayAttr[0];\n"

/-- Text of `OptionalProp.convertFromAttribute` after its `_makePropStorage`
splice. -/
def optionalConvertFromAttributePost (p : Property) : String :=
  "\nauto presentRes = [&](Attribute propAttr, " ++ p.storageType ++
  "& propStorage) -> ::mlir::LogicalResult \x7b\n  " ++
  ((p.convertFromAttribute.replace "$_attr" "propAttr").replace
    "$_storage" "propStorage") ++
  "\n\x7d(presentAttr, presentVal);\n" ++
  "if (::mlir::failed(presentRes))\n  return ::mlir::failure();\n" ++
  "$_storage = std::move(presentVal);\nreturn ::mlir::success();"

/-- Text of `OptionalProp.readFromMlirBytecode` before its
`_makePropStorage` splice. -/
def optionalReadFromMlirBytecodePre : String :=
  "bool isPresent = false;\n" ++
  "if (::mlir::failed($_reader.readBool(isPresent)))\n  return ::mlir::failure();\n" ++
  "if (!isPresent) \x7b\n  $_storage = std::nullopt;\n  return ::mlir::success();\n\x7d\n"

/-- Text of `OptionalProp.readFromMlirBytecode` after its `_makePropStorage`
splice. -/
def optionalReadFromMlirBytecodePost (p : Property) : String :=
  "\nauto presentResult = [&](" ++ p.storageType ++
  "& propStorage) -> ::mlir::LogicalResult \x7b\n  " ++
  (p.readFromMlirBytecode.replace "$_storage" "propStorage") ++
  ";\n  return ::mlir::success();\n\x7d(presentVal);\n" ++
  "if (::mlir::failed(presentResult))\n  return ::mlir::failure();\n" ++
  "$_storage = std::move(presentVal);"

/-- The `OptionalProp` class: present-or-absent wrapper around `p`, stored as
`std::optional` of `p`'s storage type, with the parse/print strategy chosen
at schema-compile time by `delegatesParsing`. -/
def OptionalProp (p : Property) (canDelegateParsing : Bool := true) : Property :=
  { Property.ofParams ("std::optional<" ++ p.storageType ++ ">")
      ("optional " ++ p.summary)
      ("std::optional<" ++ p.interfaceType ++ ">") with
    defaultValue := "std::nullopt"
    convertFromStorage :=
      if hasTrivialStorage p then p.convertFromStorage
      else
        "($_storage.has_value() ? std::optional<" ++ p.interfaceType ++ ">\x7b" ++
        (p.convertFromStorage.replace "$_storage" "(*($_storage))") ++
        "\x7d : std::nullopt)"
    assignToStorage :=
      if hasTrivialStorage p then p.assignToStorage
      else
        optionalAssignToStoragePre ++ makePropStorage p "presentVal" ++
        optionalAssignToStoragePost p
    convertFromAttribute :=
      optionalConvertFromAttributePre ++ makePropStorage p "presentVal" ++
      optionalConvertFromAttributePost p
    convertToAttribute :=
      "if (!$_storage.has_value()) \x7b\n  return ::mlir::ArrayAttr::get($_ctxt, \x7b\x7d);\n\x7d\n" ++
      "auto attr = [&]() -> ::mlir::Attribute \x7b\n  " ++
      (p.convertToAttribute.replace "$_storage" "(*($_storage))") ++
      "\n\x7d();\n" ++
      "return ::mlir::ArrayAttr::get($_ctxt, \x7battr\x7d);"
    predicate :=
      match p.predicate with
      | Pred.truePred => Pred.truePred
      | q => Pred.or [Pred.cpred "!$_self.has_value()",
                      Pred.substLeaves "$_self" "(*($_self))" q]
    parser :=
      if delegatesParsing p canDelegateParsing then delegatedParserText p
      else generalParserText p
    optionalParser :=
      if delegatesParsing p canDelegateParsing then delegatedOptionalParserText p
      else generalOptionalParserText p
    printer :=
      if delegatesParsing p canDelegateParsing then delegatedPrinterText p
      else generalPrinterText p
    readFromMlirBytecode :=
      optionalReadFromMlirBytecodePre ++ makePropStorage p "presentVal" ++
      optionalReadFromMlirBytecodePost p
    writeToMlirBytecode :=
      "$_writer.writeOwnedBool($_storage.has_value());\n" ++
      "if (!$_storage.has_value())\n  return;\n" ++
      (p.writeToMlirBytecode.replace "$_storage" "(*($_storage))")
    hashProperty :=
      if p.hashProperty == "" then p.hashProperty
      else
        "hash_value($_storage.has_value() ? std::optional<::llvm::hash_code>\x7b" ++
        (p.hashProperty.replace "$_storage" "(*($_storage))") ++
        "\x7d : std::nullopt)" }

/-- The `assert` clause of `OptionalProp`, as a condition on the record's
final `defaultValue` field: delegated parsing requires the default to be
`std::nullopt`. -/
def OptionalPropAssertCond (p : Property) (canDelegateParsing : Bool)
    (defaultValue : String) : Bool :=
  !(delegatesParsing p canDelegateParsing) || (defaultValue == "std::nullopt")

/-! ## Semantic layer: behavior of the generated C++ code

`mlir::Attribute` values, as far as these fragments inspect them, are
modelled by an inductive: the unit marker attribute, boolean attributes,
integer attributes, string attributes, and ordered array attributes.
`LogicalResult` is modelled as `Bool` (`true` = `success()`) when the
fragment also mutates caller-visible state, and fallible conversions whose
only caller-visible effect is their result are modelled with `Option`. -/

/-- Model of `mlir::Attribute` for the attribute kinds these fragments
dispatch on (`UnitAttr`, `BoolAttr`, `IntegerAttr`, `StringAttr`,
`ArrayAttr`). -/
inductive Attribute where
  | unit : Attribute
  | bool : Bool → Attribute
  | int : Int → Attribute
  | str : String → Attribute
  | array : List Attribute → Attribute

/-- Semantics of `UnitProp.convertToAttribute`: `true` becomes the `UnitAttr`
marker, `false` becomes `BoolAttr(false)`. -/
def UnitPropConvertToAttributeSem (storage : Bool) : Attribute :=
  if storage then Attribute.unit else Attribute.bool false

/-- Semantics of `UnitProp.convertFromAttribute`: a `UnitAttr` sets storage
to `true`, a `BoolAttr` sets storage to its value, anything else fails
(`none`); on success the result is the new storage value. -/
def UnitPropConvertFromAttributeSem (attr : Attribute) : Option Bool :=
  match attr with
  | Attribute.unit => some true
  | Attribute.bool b => some b
  | _ => none

/-- Element-conversion loop of `ArrayProp.convertFromAttribute`: for each
element attribute, a fresh `elemVal` slot is created (initialized by
`_makePropStorage`, here `elemInit`), the element's `convertFromAttribute`
runs on it (`elemFromAttr`, `none` = `failure()`), failure aborts the whole
conversion returning the storage as mutated so far, and success appends the
converted element to `$_storage` via `push_back`. -/
def ArrayPropConvertFromAttributeLoop {σ : Type} (elemInit : σ)
    (elemFromAttr : Attribute → σ → Option σ) :
    List Attribute → List σ → Bool × List σ
  | [], storage => (true, storage)
  | elemAttr :: rest, storage =>
    match elemFromAttr elemAttr elemInit with
    | none => (false, storage)
    | some elemVal =>
      ArrayPropConvertFromAttributeLoop elemInit elemFromAttr rest
        (storage ++ [elemVal])

/-- Semantics of `ArrayProp.convertFromAttribute`: a non-`ArrayAttr` input is
rejected (`dyn_cast_if_present` fails, diagnostic "expected array
attribute"), otherwise the element loop runs on the caller's `$_storage`
(passed and returned explicitly, since the generated code mutates it by
reference). -/
def ArrayPropConvertFromAttributeSem {σ : Type} (elemInit : σ)
    (elemFromAttr : Attribute → σ → Option σ) (attr : Attribute)
    (storage : List σ) : Bool × List σ :=
  match attr with
  | Attribute.array elemAttrs =>
    ArrayPropConvertFromAttributeLoop elemInit elemFromAttr elemAttrs storage
  | _ => (false, storage)

/-- Semantics of `ArrayProp.convertToAttribute`: map every stored element
through `elem.convertToAttribute` and wrap the results in an `ArrayAttr`. -/
def ArrayPropConvertToAttributeSem {σ : Type} (elemToAttr : σ → Attribute)
    (storage : List σ) : Attribute :=
  Attribute.array (storage.map elemToAttr)

/-- Semantics of the predicate `ArrayProp` synthesizes in the non-trivial
case: `::llvm::all_of($_self, wrapper)` where the wrapper converts one
element from storage to interface form and applies `elem`'s predicate
(`_makeStorageWrapperPred`). `List.all` short-circuits on the first `false`,
as `all_of` does. -/
def ArrayPropPredicateSem {σ ι : Type} (elemPred : ι → Bool)
    (elemConvertFromStorage : σ → ι) (self : List σ) : Bool :=
  self.all (fun s => elemPred (elemConvertFromStorage s))

/-- Semantics of `OptionalProp.convertFromAttribute`: a non-`ArrayAttr`
input or an array of more than one element is a format error; an empty array
is absence; a one-element array converts the element via `p`'s
`convertFromAttribute` (starting from the `_makePropStorage`-initialized
`presentVal`, here `pInit`) and wraps it in presence, propagating failure. -/
def OptionalPropConvertFromAttributeSem {σ : Type} (pInit : σ)
    (pFromAttr : Attribute → σ → Option σ) (attr : Attribute) :
    Option (Option σ) :=
  match attr with
  | Attribute.array elems =>
    if elems.length > 1 then none
    else
      match elems with
      | [] => some none
      | presentAttr :: _ =>
        match pFromAttr presentAttr pInit with
        | none => none
        | some presentVal => some (some presentVal)
  | _ => none

/-- Semantics of `OptionalProp.convertToAttribute`: absence becomes the
empty `ArrayAttr`, presence becomes a one-element `ArrayAttr` holding `p`'s
converted value. -/
def OptionalPropConvertToAttributeSem {σ : Type} (pToAttr : σ → Attribute)
    (storage : Option σ) : Attribute :=
  match storage with
  | none => Attribute.array []
  | some v => Attribute.array [pToAttr v]

/-! ### Bytecode fragments of the primitive kinds

The reader/writer primitives are external collaborators assumed correct, so
each channel (varint, boolean, owned string) transports its payload
losslessly. What the primitive kinds' fragments add on top of the
primitives are the C++ integer conversions: `IntProp`'s write passes an
`intN_t` storage value to `writeVarInt(uint64_t)` (conversion modulo 2^64),
and its read assigns the `uint64_t` payload back to the `intN_t` storage
(conversion modulo 2^N, two's complement). -/

/-- Semantics of `IntProp.writeToMlirBytecode`
(`$_writer.writeVarInt($_storage)`): the `intN_t` storage value converted to
the `uint64_t` varint payload. -/
def IntPropWriteToMlirBytecodeSem (storage : Int) : Nat :=
  (storage % (2 : Int) ^ 64).toNat

/-- Semantics of `IntProp.readFromMlirBytecode` for an `intN_t` storage type
of bit width `w` (`uint64_t val; readVarInt(val); $_storage = val;`): the
payload reduced modulo 2^w and reinterpreted as a signed value. -/
def IntPropReadFromMlirBytecodeSem (w : Nat) (val : Nat) : Int :=
  let r : Int := (val : Int) % (2 : Int) ^ w
  if r < (2 : Int) ^ (w - 1) then r else r - (2 : Int) ^ w

/-- Semantics of `BoolProp.writeToMlirBytecode`
(`$_writer.writeOwnedBool($_storage)`). -/
def BoolPropWriteToMlirBytecodeSem (storage : Bool) : Bool := storage

/-- Semantics of `BoolProp.readFromMlirBytecode`
(`return $_reader.readBool($_storage)`). -/
def BoolPropReadFromMlirBytecodeSem (payload : Bool) : Bool := payload

/-- Semantics of `StringProp.writeToMlirBytecode`
(`$_writer.writeOwnedString($_storage)`). -/
def StringPropWriteToMlirBytecodeSem (storage : String) : String := storage

/-- Semantics of `StringProp.readFromMlirBytecode`
(`StringRef val; readString(val); $_storage = val.str();`): the received
view copied into the owned storage string. -/
def StringPropReadFromMlirBytecodeSem (payload : String) : String := payload

/-- Semantics of `UnitProp.writeToMlirBytecode`
(`$_writer.writeOwnedBool($_storage)`). -/
def UnitPropWriteToMlirBytecodeSem (storage : Bool) : Bool := storage

/-- Semantics of `UnitProp.readFromMlirBytecode`
(`readBool($_storage)` with failure propagation). -/
def UnitPropReadFromMlirBytecodeSem (payload : Bool) : Bool := payload

/-! ## Claim theorems -/

/-- C9: `DefaultValued(p, value)` is a descriptor identical to `p` except for
its `defaultValue` and optional distinct storage initializer: all seven
behavior fragments (storage/interface conversions, attribute conversions,
hashing, parser and optional parser, printer, binary read/write), the
predicate, the types, and the documentation fields are forwarded from `p`
verbatim and unchanged. -/
theorem DefaultValuedProp_forwards_all_fragments (p : Property)
    (default storageDefault : String) :
    (DefaultValuedProp p default storageDefault).summary = p.summary ∧
    (DefaultValuedProp p default storageDefault).description = p.description ∧
    (DefaultValuedProp p default storageDefault).storageType = p.storageType ∧
    (DefaultValuedProp p default storageDefault).interfaceType = p.interfaceType ∧
    (DefaultValuedProp p default storageDefault).predicate = p.predicate ∧
    (DefaultValuedProp p default storageDefault).convertFromStorage = p.convertFromStorage ∧
    (DefaultValuedProp p default storageDefault).assignToStorage = p.assignToStorage ∧
    (DefaultValuedProp p default storageDefault).convertToAttribute = p.convertToAttribute ∧
    (DefaultValuedProp p default storageDefault).convertFromAttribute = p.convertFromAttribute ∧
    (DefaultValuedProp p default storageDefault).hashProperty = p.hashProperty ∧
    (DefaultValuedProp p default storageDefault).parser = p.parser ∧
    (DefaultValuedProp p default storageDefault).optionalParser = p.optionalParser ∧
    (DefaultValuedProp p default storageDefault).printer = p.printer ∧
    (DefaultValuedProp p default storageDefault).readFromMlirBytecode = p.readFromMlirBytecode ∧
    (DefaultValuedProp p default storageDefault).writeToMlirBytecode = p.writeToMlirBytecode ∧
    (DefaultValuedProp p default storageDefault).defaultValue = default ∧
    (DefaultValuedProp p default storageDefault).storageTypeValueOverride = storageDefault :=
  ⟨rfl, rfl, rfl, rfl, rfl, rfl, rfl, rfl, rfl, rfl, rfl, rfl, rfl, rfl, rfl,
   rfl, rfl⟩

/-- C4: `Confined(p, q, newSummary?)` has predicate `p.predicate AND q` when
`p.predicate` is not the trivially-true predicate and just `q` when it is;
every fragment other than the predicate (and, when a new summary is given,
the summary) is forwarded unchanged from `p`. -/
theorem ConfinedProp_predicate_conjunction (p : Property) (q : Pred)
    (newSummary : String) :
    (p.predicate = Pred.truePred → (ConfinedProp p q newSummary).predicate = q) ∧
    (p.predicate ≠ Pred.truePred →
      (ConfinedProp p q newSummary).predicate = Pred.and [p.predicate, q]) ∧
    (newSummary = "" → (ConfinedProp p q newSummary).summary = p.summary) ∧
    (newSummary ≠ "" → (ConfinedProp p q newSummary).summary = newSummary) ∧
    (ConfinedProp p q newSummary).description = p.description ∧
    (ConfinedProp p q newSummary).storageType = p.storageType ∧
    (ConfinedProp p q newSummary).interfaceType = p.interfaceType ∧
    (ConfinedProp p q newSummary).convertFromStorage = p.convertFromStorage ∧
    (ConfinedProp p q newSummary).assignToStorage = p.assignToStorage ∧
    (ConfinedProp p q newSummary).convertToAttribute = p.convertToAttribute ∧
    (ConfinedProp p q newSummary).convertFromAttribute = p.convertFromAttribute ∧
    (ConfinedProp p q newSummary).hashProperty = p.hashProperty ∧
    (ConfinedProp p q newSummary).parser = p.parser ∧
    (ConfinedProp p q newSummary).optionalParser = p.optionalParser ∧
    (ConfinedProp p q newSummary).printer = p.printer ∧
    (ConfinedProp p q newSummary).readFromMlirBytecode = p.readFromMlirBytecode ∧
    (ConfinedProp p q newSummary).writeToMlirBytecode = p.writeToMlirBytecode ∧
    (ConfinedProp p q newSummary).defaultValue = p.defaultValue ∧
    (ConfinedProp p q newSummary).storageTypeValueOverride = p.storageTypeValueOverride := by
  refine ⟨?_, ?_, ?_, ?_, rfl, rfl, rfl, rfl, rfl, rfl, rfl, rfl, rfl, rfl,
    rfl, rfl, rfl, rfl, rfl⟩
  · intro h; simp [ConfinedProp, h]
  · intro h
    cases hp : p.predicate with
    | truePred => exact absurd hp h
    | cpred s => simp [ConfinedProp, hp]
    | and l => simp [ConfinedProp, hp]
    | or l => simp [ConfinedProp, hp]
    | concat a b c => simp [ConfinedProp, hp]
    | substLeaves a b c => simp [ConfinedProp, hp]
  · intro h; simp [ConfinedProp, Property.ofParams, h]
  · intro h; simp [ConfinedProp, Property.ofParams, h]

/-- C4 witness: for `I32Prop` (whose predicate is trivially true) confined by
a predicate `q`, the result's predicate is exactly `q`, and for a property
whose predicate is already `q0`, the result is the conjunction. -/
theorem ConfinedProp_predicate_conjunction_witness :
    (ConfinedProp I32Prop (Pred.cpred "$_self > 0") "").predicate =
      Pred.cpred "$_self > 0" ∧
    (ConfinedProp (ConfinedProp I32Prop (Pred.cpred "$_self > 0") "")
        (Pred.cpred "$_self < 7") "").predicate =
      Pred.and [Pred.cpred "$_self > 0", Pred.cpred "$_self < 7"] :=
  ⟨(ConfinedProp_predicate_conjunction I32Prop (Pred.cpred "$_self > 0") "").1 rfl,
   (ConfinedProp_predicate_conjunction
      (ConfinedProp I32Prop (Pred.cpred "$_self > 0") "")
      (Pred.cpred "$_self < 7") "").2.1
     (by simp [ConfinedProp, I32Prop, IntProp, Property.ofParams])⟩

/-- C2: the `OptionalProp` assert holds for the class's own `defaultValue`
(which is always `std::nullopt`), and viewed as a condition on an arbitrary
final `defaultValue`, it fails exactly for instances that combine delegated
parsing with a non-absent default — such combinations are rejected at
schema-compile time rather than deferred to runtime. -/
theorem OptionalProp_assert_delegation_requires_nullopt (p : Property)
    (canDelegateParsing : Bool) (dv : String) :
    OptionalPropAssertCond p canDelegateParsing
      ((OptionalProp p canDelegateParsing).defaultValue) = true ∧
    (OptionalPropAssertCond p canDelegateParsing dv = false ↔
      delegatesParsing p canDelegateParsing = true ∧ dv ≠ "std::nullopt") := by
  constructor
  · simp [OptionalPropAssertCond, OptionalProp]
  · simp [OptionalPropAssertCond]

/-- C3: delegated parsing is chosen exactly when `p` has no default value,
`p` supplies a non-empty optional-parse fragment, and delegation is not
explicitly disabled; the `parser`, `optionalParser` and `printer` fragments
are then the delegated ones, and otherwise the general `none`/`some<...>`
ones — the choice is a schema-compile-time function of the descriptor. -/
theorem OptionalProp_delegation_choice (p : Property) (canDelegateParsing : Bool) :
    (delegatesParsing p canDelegateParsing = true ↔
      p.defaultValue = "" ∧ p.optionalParser ≠ "" ∧ canDelegateParsing = true) ∧
    (delegatesParsing p canDelegateParsing = true →
      (OptionalProp p canDelegateParsing).parser = delegatedParserText p ∧
      (OptionalProp p canDelegateParsing).optionalParser = delegatedOptionalParserText p ∧
      (OptionalProp p canDelegateParsing).printer = delegatedPrinterText p) ∧
    (delegatesParsing p canDelegateParsing = false →
      (OptionalProp p canDelegateParsing).parser = generalParserText p ∧
      (OptionalProp p canDelegateParsing).optionalParser = generalOptionalParserText p ∧
      (OptionalProp p canDelegateParsing).printer = generalPrinterText p) := by
  refine ⟨?_, ?_, ?_⟩
  · simp [delegatesParsing, and_assoc]
  · intro h; simp [OptionalProp, h]
  · intro h; simp [OptionalProp, h]

/-- C3 witness: an optional of `I32Prop` (no default, has an optional parser)
delegates, and an optional of `UnitProp` (which has default `"false"`) or one
with delegation disabled uses the general strategy. -/
theorem OptionalProp_delegation_choice_witness :
    (OptionalProp I32Prop true).parser = delegatedParserText I32Prop ∧
    (OptionalProp UnitProp true).parser = generalParserText UnitProp ∧
    (OptionalProp I32Prop false).printer = generalPrinterText I32Prop :=
  ⟨((OptionalProp_delegation_choice I32Prop true).2.1 (by decide)).1,
   ((OptionalProp_delegation_choice UnitProp true).2.2 (by decide)).1,
   ((OptionalProp_delegation_choice I32Prop false).2.2 (by decide)).2.2⟩

/-- C8: the unit kind's `convertToAttribute` maps storage `true` to the
marker (`UnitAttr`) attribute and `false` to an explicit boolean-false
attribute; `convertFromAttribute` maps the marker back to `true` and a
boolean attribute to its value, so presence/absence round-trips through
attribute form, and every other attribute kind is rejected with failure. -/
theorem UnitProp_attribute_conversion :
    UnitPropConvertToAttributeSem true = Attribute.unit ∧
    UnitPropConvertToAttributeSem false = Attribute.bool false ∧
    UnitPropConvertFromAttributeSem Attribute.unit = some true ∧
    (∀ b, UnitPropConvertFromAttributeSem (Attribute.bool b) = some b) ∧
    (∀ b, UnitPropConvertFromAttributeSem (UnitPropConvertToAttributeSem b) = some b) ∧
    (∀ n, UnitPropConvertFromAttributeSem (Attribute.int n) = none) ∧
    (∀ s, UnitPropConvertFromAttributeSem (Attribute.str s) = none) ∧
    (∀ l, UnitPropConvertFromAttributeSem (Attribute.array l) = none) :=
  ⟨rfl, rfl, rfl, fun _ => rfl, fun b => by cases b <;> rfl,
   fun _ => rfl, fun _ => rfl, fun _ => rfl⟩

/-- C5: the optional combinator represents absence as an empty array
attribute and presence as a one-element array attribute; converting from an
attribute fails for every non-array attribute and for arrays of more than
one element, maps the empty array to absent, and maps a one-element array to
the present value obtained through `p`'s own `convertFromAttribute`. -/
theorem OptionalProp_attribute_shape {σ : Type} (pInit : σ)
    (pFromAttr : Attribute → σ → Option σ) (pToAttr : σ → Attribute) :
    OptionalPropConvertFromAttributeSem pInit pFromAttr (Attribute.array []) =
      some none ∧
    (∀ a, OptionalPropConvertFromAttributeSem pInit pFromAttr (Attribute.array [a]) =
      (pFromAttr a pInit).map some) ∧
    (∀ l, 2 ≤ l.length →
      OptionalPropConvertFromAttributeSem pInit pFromAttr (Attribute.array l) = none) ∧
    OptionalPropConvertFromAttributeSem pInit pFromAttr Attribute.unit = none ∧
    (∀ b, OptionalPropConvertFromAttributeSem pInit pFromAttr (Attribute.bool b) = none) ∧
    (∀ n, OptionalPropConvertFromAttributeSem pInit pFromAttr (Attribute.int n) = none) ∧
    (∀ s, OptionalPropConvertFromAttributeSem pInit pFromAttr (Attribute.str s) = none) ∧
    OptionalPropConvertToAttributeSem pToAttr none = Attribute.array [] ∧
    (∀ v, OptionalPropConvertToAttributeSem pToAttr (some v) =
      Attribute.array [pToAttr v]) := by
  refine ⟨rfl, ?_, ?_, rfl, fun _ => rfl, fun _ => rfl, fun _ => rfl, rfl,
    fun _ => rfl⟩
  · intro a
    cases h : pFromAttr a pInit <;>
      simp [OptionalPropConvertFromAttributeSem, h]
  · intro l hl
    match l, hl with
    | a :: b :: rest, _ =>
      simp [OptionalPropConvertFromAttributeSem]

/-- C5 witness: an optional unit property converted from a two-element array
attribute fails, and from a one-element array holding the marker yields the
present value `true`. -/
theorem OptionalProp_attribute_shape_witness :
    OptionalPropConvertFromAttributeSem false
      (fun a _ => UnitPropConvertFromAttributeSem a)
      (Attribute.array [Attribute.unit, Attribute.unit]) = none ∧
    OptionalPropConvertFromAttributeSem false
      (fun a _ => UnitPropConvertFromAttributeSem a)
      (Attribute.array [Attribute.unit]) = some (some true) :=
  ⟨(OptionalProp_attribute_shape false (fun a _ => UnitPropConvertFromAttributeSem a)
      UnitPropConvertToAttributeSem).2.2.1 [Attribute.unit, Attribute.unit]
      (by decide),
   (OptionalProp_attribute_shape false (fun a _ => UnitPropConvertFromAttributeSem a)
      UnitPropConvertToAttributeSem).2.1 Attribute.unit⟩

/-- C7: `Array(elem)`'s predicate is the trivially-true predicate when
`elem.predicate` is trivially true, and otherwise the
`::llvm::all_of($_self, ...)` wrapping of `elem`'s predicate via
`_makeStorageWrapperPred`; semantically that `all_of` reduction holds of a
stored sequence exactly when every element satisfies `elem`'s predicate
after conversion from storage to interface form (`List.all` short-circuits
at the first failing element, as `all_of` may). -/
theorem ArrayProp_predicate_all_elements (elem : Property) (newSummary : String)
    {σ ι : Type} (elemPred : ι → Bool) (conv : σ → ι) (xs : List σ) :
    (elem.predicate = Pred.truePred →
      (ArrayProp elem newSummary).predicate = Pred.truePred) ∧
    (elem.predicate ≠ Pred.truePred →
      (ArrayProp elem newSummary).predicate =
        Pred.concat "::llvm::all_of($_self, " (makeStorageWrapperPred elem) ")") ∧
    (ArrayPropPredicateSem elemPred conv xs = true ↔
      ∀ s ∈ xs, elemPred (conv s) = true) := by
  refine ⟨?_, ?_, ?_⟩
  · intro h; simp [ArrayProp, h]
  · intro h
    cases hp : elem.predicate with
    | truePred => exact absurd hp h
    | cpred s => simp [ArrayProp, hp]
    | and l => simp [ArrayProp, hp]
    | or l => simp [ArrayProp, hp]
    | concat a b c => simp [ArrayProp, hp]
    | substLeaves a b c => simp [ArrayProp, hp]
  · simp [ArrayPropPredicateSem, List.all_eq_true]

/-- C7 witness: an array of the trivially-true-predicate `I32Prop` has the
trivially-true predicate, and the `all_of` semantics evaluated on a concrete
sequence with one failing element is false while it holds of a fully valid
sequence. -/
theorem ArrayProp_predicate_all_elements_witness :
    (ArrayProp I32Prop "").predicate = Pred.truePred ∧
    ArrayPropPredicateSem (fun i : Int => decide (0 < i)) (fun s : Int => s)
      [1, 2, 3] = true ∧
    ArrayPropPredicateSem (fun i : Int => decide (0 < i)) (fun s : Int => s)
      [1, -2, 3] = false :=
  ⟨(ArrayProp_predicate_all_elements I32Prop "" (fun i : Int => decide (0 < i))
      (fun s : Int => s) []).1 rfl,
   by decide, by decide⟩

/-- C10: every fresh storage slot the container combinators materialize is
declared by the single `_makePropStorage` rule, whose initializer precedence
is fixed: the storage-type override when non-empty, else the default value
when non-empty, else default construction; and every slot-materializing
fragment the combinators synthesize embeds exactly that declaration — the
`Array` combinator's `convertFromAttribute`, `readFromMlirBytecode`,
`parser` and `optionalParser` for its per-element `elemVal` slot, and the
`Optional` combinator's `convertFromAttribute`, `readFromMlirBytecode`,
`parser` and `optionalParser` (under both the delegated and the general
strategy) and non-trivial-storage `assignToStorage` for its present-value
`presentVal` slot. -/
theorem makePropStorage_precedence_and_shared_use (p elem : Property)
    (canDelegateParsing : Bool) (name newSummary : String) :
    (p.storageTypeValueOverride ≠ "" →
      makePropStorage p name =
        p.storageType ++ " " ++ name ++ " = " ++ p.storageTypeValueOverride ++ ";") ∧
    (p.storageTypeValueOverride = "" → p.defaultValue ≠ "" →
      makePropStorage p name =
        p.storageType ++ " " ++ name ++ " = " ++ p.defaultValue ++ ";") ∧
    (p.storageTypeValueOverride = "" → p.defaultValue = "" →
      makePropStorage p name = p.storageType ++ " " ++ name ++ ";") ∧
    (∃ s1 s2, (ArrayProp elem newSummary).convertFromAttribute =
      s1 ++ makePropStorage elem "elemVal" ++ s2) ∧
    (∃ s1 s2, (ArrayProp elem newSummary).readFromMlirBytecode =
      s1 ++ makePropStorage elem "elemVal" ++ s2) ∧
    (∃ s1 s2, (ArrayProp elem newSummary).parser =
      s1 ++ makePropStorage elem "elemVal" ++ s2) ∧
    (∃ s1 s2, (ArrayProp elem newSummary).optionalParser =
      s1 ++ makePropStorage elem "elemVal" ++ s2) ∧
    (∃ s1 s2, (OptionalProp p canDelegateParsing).convertFromAttribute =
      s1 ++ makePropStorage p "presentVal" ++ s2) ∧
    (∃ s1 s2, (OptionalProp p canDelegateParsing).readFromMlirBytecode =
      s1 ++ makePropStorage p "presentVal" ++ s2) ∧
    (∃ s1 s2, (OptionalProp p canDelegateParsing).parser =
      s1 ++ makePropStorage p "presentVal" ++ s2) ∧
    (∃ s1 s2, (OptionalProp p canDelegateParsing).optionalParser =
      s1 ++ makePropStorage p "presentVal" ++ s2) ∧
    (hasTrivialStorage p = false →
      ∃ s1 s2, (OptionalProp p canDelegateParsing).assignToStorage =
        s1 ++ makePropStorage p "presentVal" ++ s2) := by
  refine ⟨?_, ?_, ?_, ?_, ?_, ?_, ?_, ?_, ?_, ?_, ?_, ?_⟩
  · intro h; simp [makePropStorage, h, String.append_assoc]
  · intro h1 h2; simp [makePropStorage, h1, h2, String.append_assoc]
  · intro h1 h2; simp [makePropStorage, h1, h2, String.append_assoc]
  · exact ⟨arrayConvertFromAttributePre, arrayConvertFromAttributePost elem, rfl⟩
  · exact ⟨arrayReadFromMlirBytecodePre, arrayReadFromMlirBytecodePost elem, rfl⟩
  · exact ⟨theParserBeginPre, theParserBeginPost elem ++ arrayParserTail,
      by simp only [ArrayProp, theParserBegin, String.append_assoc]⟩
  · exact ⟨theParserBeginPre, theParserBeginPost elem ++ arrayOptionalParserTail,
      by simp only [ArrayProp, theParserBegin, String.append_assoc]⟩
  · exact ⟨optionalConvertFromAttributePre, optionalConvertFromAttributePost p, rfl⟩
  · exact ⟨optionalReadFromMlirBytecodePre, optionalReadFromMlirBytecodePost p, rfl⟩
  · cases h : delegatesParsing p canDelegateParsing with
    | true =>
      exact ⟨delegatedParserBeginPre,
        delegatedParserBeginPost p ++
          ("return ::mlir::failure();" ++ delegatedParserEnd),
        by simp only [OptionalProp, h, if_true, delegatedParserText,
          delegatedParserBegin, String.append_assoc]⟩
    | false =>
      exact ⟨generalParserBegin ++
          "return $_parser.emitError($_parser.getCurrentLocation(), \"expected \x27none\x27 or \x27some<prop>\x27\");" ++
          generalParserEndPre,
        generalParserEndPost p,
        by simp only [OptionalProp, h, Bool.false_eq_true, if_false,
          generalParserText, generalParserEnd, String.append_assoc]⟩
  · cases h : delegatesParsing p canDelegateParsing with
    | true =>
      exact ⟨delegatedParserBeginPre,
        delegatedParserBeginPost p ++
          ("return std::nullopt;" ++ delegatedParserEnd),
        by simp only [OptionalProp, h, if_true, delegatedOptionalParserText,
          delegatedParserBegin, String.append_assoc]⟩
    | false =>
      exact ⟨generalParserBegin ++ "return std::nullopt;" ++ generalParserEndPre,
        generalParserEndPost p,
        by simp only [OptionalProp, h, Bool.false_eq_true, if_false,
          generalOptionalParserText, generalParserEnd, String.append_assoc]⟩
  · intro h
    exact ⟨optionalAssignToStoragePre, optionalAssignToStoragePost p,
      by simp only [OptionalProp, h, Bool.false_eq_true, if_false]⟩

/-- C10 witness: for `UnitProp` (no storage override, default `"false"`) the
declaration initializes from the default value, for `I32Prop` (neither) it
is default-constructed, and for `StringProp` (whose storage is not trivial)
the optional wrapper's `assignToStorage` also embeds the shared
declaration. -/
theorem makePropStorage_precedence_and_shared_use_witness :
    makePropStorage UnitProp "presentVal" =
      "bool" ++ " " ++ "presentVal" ++ " = " ++ "false" ++ ";" ∧
    makePropStorage I32Prop "elemVal" = "int32_t" ++ " " ++ "elemVal" ++ ";" ∧
    (∃ s1 s2, (OptionalProp StringProp true).assignToStorage =
      s1 ++ makePropStorage StringProp "presentVal" ++ s2) :=
  ⟨(makePropStorage_precedence_and_shared_use UnitProp UnitProp true
      "presentVal" "").2.1 rfl (by decide),
   (makePropStorage_precedence_and_shared_use I32Prop I32Prop true
      "elemVal" "").2.2.1 rfl rfl,
   (makePropStorage_precedence_and_shared_use StringProp StringProp true
      "presentVal" "").2.2.2.2.2.2.2.2.2.2.2 (by decide)⟩

/-- Helper for C1: when some element of the list fails to convert, the
element loop of `ArrayProp.convertFromAttribute` returns failure, and the
caller-visible storage holds the initial contents followed by exactly the
successfully converted elements preceding the first failing one. -/
theorem ArrayPropLoop_first_failure {σ : Type} (elemInit : σ)
    (f : Attribute → σ → Option σ) :
    ∀ (l : List Attribute) (storage : List σ),
      (∃ a ∈ l, f a elemInit = none) →
      ArrayPropConvertFromAttributeLoop elemInit f l storage =
        (false,
         storage ++
           (l.takeWhile (fun a => (f a elemInit).isSome)).filterMap
             (fun a => f a elemInit)) := by
  intro l
  induction l with
  | nil => intro storage h; simp at h
  | cons a t ih =>
    intro storage h
    cases hfa : f a elemInit with
    | none =>
      simp [ArrayPropConvertFromAttributeLoop, hfa, List.takeWhile_cons, hfa]
    | some v =>
      have ht : ∃ x ∈ t, f x elemInit = none := by
        obtain ⟨x, hx, hfx⟩ := h
        rcases List.mem_cons.mp hx with rfl | hx'
        · exact absurd hfx (by simp [hfa])
        · exact ⟨x, hx', hfx⟩
      have := ih (storage ++ [v]) ht
      simp [ArrayPropConvertFromAttributeLoop, hfa, this,
        List.takeWhile_cons, List.filterMap_cons]

/-- C1 counterexample: an array attribute whose first element converts
successfully and whose second element is malformed makes the generated
`ArrayProp.convertFromAttribute` return failure, yet the caller-visible
destination storage has already received the first converted element via
`push_back` — it is not left empty, contradicting the claim's
"returns failure without emitting any elements". Element kind: `UnitProp`
(fresh slot initialized to `false`, its `_makePropStorage` default). -/
theorem ArrayProp_convertFromAttribute_emits_prefix_cex :
    ArrayPropConvertFromAttributeSem false
      (fun a _ => UnitPropConvertFromAttributeSem a)
      (Attribute.array [Attribute.unit, Attribute.int 5]) [] =
      (false, [true]) ∧
    (ArrayPropConvertFromAttributeSem false
      (fun a _ => UnitPropConvertFromAttributeSem a)
      (Attribute.array [Attribute.unit, Attribute.int 5]) []).2 ≠ [] :=
  ⟨rfl, by decide⟩

/-- C1 amended: for every input array attribute containing at least one
malformed element, the conversion returns failure, propagating the first
element failure; the failing element itself is never committed, and the
caller-visible destination storage receives exactly the successfully
converted elements preceding the first malformed one (append-only) — in
particular, when the first element is malformed, no element is emitted. -/
theorem ArrayProp_convertFromAttribute_first_failure {σ : Type} (elemInit : σ)
    (f : Attribute → σ → Option σ) (l : List Attribute) (storage : List σ)
    (h : ∃ a ∈ l, f a elemInit = none) :
    (ArrayPropConvertFromAttributeSem elemInit f (Attribute.array l) storage).1 =
      false ∧
    (ArrayPropConvertFromAttributeSem elemInit f (Attribute.array l) storage).2 =
      storage ++
        (l.takeWhile (fun a => (f a elemInit).isSome)).filterMap
          (fun a => f a elemInit) := by
  have := ArrayPropLoop_first_failure elemInit f l storage h
  constructor <;> simp [ArrayPropConvertFromAttributeSem, this]

/-- C1 witness: converting an array of unit properties from a singleton
array attribute whose only element is malformed fails and emits nothing. -/
theorem ArrayProp_convertFromAttribute_first_failure_witness :
    (ArrayPropConvertFromAttributeSem false
      (fun a _ => UnitPropConvertFromAttributeSem a)
      (Attribute.array [Attribute.int 5]) []).1 = false ∧
    (ArrayPropConvertFromAttributeSem false
      (fun a _ => UnitPropConvertFromAttributeSem a)
      (Attribute.array [Attribute.int 5]) []).2 =
      [] ++
        (([Attribute.int 5]).takeWhile
          (fun a => (UnitPropConvertFromAttributeSem a).isSome)).filterMap
          (fun a => UnitPropConvertFromAttributeSem a) :=
  ArrayProp_convertFromAttribute_first_failure false
    (fun a _ => UnitPropConvertFromAttributeSem a) [Attribute.int 5] []
    ⟨Attribute.int 5, by simp, rfl⟩

/-- C6: for every primitive property kind, reading back the bytecode written
for a representable storage value yields the value again: the integer kind
for every value representable in its signed `w`-bit storage type
(`w ≤ 64`), and the boolean, string and unit kinds for every value, the
reader/writer primitives being external collaborators assumed lossless. -/
theorem primitive_bytecode_round_trip (w : Nat) (v : Int) (b : Bool)
    (s : String) (u : Bool) (hw0 : 0 < w) (hw : w ≤ 64)
    (h1 : -((2 : Int) ^ (w - 1)) ≤ v) (h2 : v < (2 : Int) ^ (w - 1)) :
    IntPropReadFromMlirBytecodeSem w (IntPropWriteToMlirBytecodeSem v) = v ∧
    BoolPropReadFromMlirBytecodeSem (BoolPropWriteToMlirBytecodeSem b) = b ∧
    StringPropReadFromMlirBytecodeSem (StringPropWriteToMlirBytecodeSem s) = s ∧
    UnitPropReadFromMlirBytecodeSem (UnitPropWriteToMlirBytecodeSem u) = u := by
  refine ⟨?_, rfl, rfl, rfl⟩
  unfold IntPropWriteToMlirBytecodeSem IntPropReadFromMlirBytecodeSem
  have hnn : 0 ≤ v % 2 ^ 64 := Int.emod_nonneg v (by positivity)
  rw [Int.toNat_of_nonneg hnn]
  have hdvd : ((2 : Int) ^ w) ∣ 2 ^ 64 := pow_dvd_pow 2 hw
  rw [Int.emod_emod_of_dvd v hdvd]
  have hsplit : (2 : Int) ^ w = 2 ^ (w - 1) * 2 := by
    rw [← pow_succ]; congr 1; omega
  set A : Int := 2 ^ (w - 1) with hA
  have hApos : (0 : Int) < A := by positivity
  by_cases hv : 0 ≤ v
  · have hm : v % 2 ^ w = v := Int.emod_eq_of_lt hv (by omega)
    rw [hm]
    simp [h2]
  · have hmod : v % 2 ^ w = v + 2 ^ w := by
      have hself : (v + 2 ^ w) % 2 ^ w = v % 2 ^ w := by
        have := @Int.add_mul_emod_self_left v (2 ^ w) 1
        rw [mul_one] at this
        exact this
      rw [← hself]
      exact Int.emod_eq_of_lt (by omega) (by omega)
    rw [hmod]
    have hge : ¬(v + 2 ^ w < A) := by omega
    simp only [hge, if_false]
    omega

/-- C6 witness: round trip of `-5` through the 32-bit integer kind, `true`
through the boolean and unit kinds, and a sample string. -/
theorem primitive_bytecode_round_trip_witness :
    IntPropReadFromMlirBytecodeSem 32 (IntPropWriteToMlirBytecodeSem (-5)) = -5 ∧
    BoolPropReadFromMlirBytecodeSem (BoolPropWriteToMlirBytecodeSem true) = true ∧
    StringPropReadFromMlirBytecodeSem (StringPropWriteToMlirBytecodeSem "abc") = "abc" ∧
    UnitPropReadFromMlirBytecodeSem (UnitPropWriteToMlirBytecodeSem true) = true :=
  primitive_bytecode_round_trip 32 (-5) true "abc" true (by decide)
    (by decide) (by decide) (by decide)

end MlirTd
